import Mathlib

/-!
Shallow embedding of `src/core/word_loader.py` and
`src/core/language_config.py` from astrbot_plugin_vocabcard, together with
theorems settling the specification claims about them.

Python JSON values are embedded as the inductive `PyValue` (with a separate
`tup` constructor, since the code converts lists to tuples and back).
Filesystem paths are lists of components; the filesystem itself is a function
from paths to `Option (Except String PyValue)`: `none` means the file does not
exist, `some (.error e)` means it exists but is not valid JSON, and
`some (.ok v)` means it exists and parses to `v`.
-/

/-- A Python runtime value, as far as this code can observe it: JSON scalars,
lists, dicts (association lists with string keys), plus tuples and `None`. -/
inductive PyValue where
  | pynone : PyValue
  | pybool (b : Bool) : PyValue
  | pyint (n : Int) : PyValue
  | str (s : String) : PyValue
  | list (xs : List PyValue) : PyValue
  | tup (xs : List PyValue) : PyValue
  | dict (kvs : List (String × PyValue)) : PyValue
deriving Repr

/-- `isinstance(v, dict)`. -/
def PyValue.isDict : PyValue → Bool
  | .dict _ => true
  | _ => false

/-- `isinstance(v, list)`. -/
def PyValue.isList : PyValue → Bool
  | .list _ => true
  | _ => false

/-- A filesystem path, as a list of components (pathlib `Path.parts`). -/
structure FsPath where
  parts : List String
deriving DecidableEq, Repr

/-- pathlib `Path.parent`: drop the last component. -/
def FsPath.parent (p : FsPath) : FsPath :=
  ⟨p.parts.dropLast⟩

/-- Split a character list into path components at `/`. -/
def splitSlashAux : List Char → List Char → List String
  | [], acc => [String.mk acc.reverse]
  | c :: rest, acc =>
    if c = '/' then String.mk acc.reverse :: splitSlashAux rest []
    else splitSlashAux rest (c :: acc)

/-- Split a relative path string into its `/`-separated components. -/
def splitSlash (s : String) : List String :=
  splitSlashAux s.toList []

/-- pathlib `path / s`: append the components of `s` (a relative string,
possibly containing slashes). -/
def FsPath.join (p : FsPath) (s : String) : FsPath :=
  ⟨p.parts ++ splitSlash s⟩

/-- The filesystem visible to the loaders. `read p = none` means the file at
`p` does not exist; `some (.error e)` means it exists but `json.load` fails;
`some (.ok v)` means it exists and parses to the value `v`. -/
structure FileSys where
  read : FsPath → Option (Except String PyValue)

/-- pathlib `p.exists()` against the filesystem `fs`. -/
def FileSys.pathExists (fs : FileSys) (p : FsPath) : Bool :=
  (fs.read p).isSome

/-- The state of `WordLoader` (`word_loader.py`, `__init__`): a primary
`data_path` and an optional shared-words path string (default `None`). -/
structure WordLoader where
  data_path : FsPath
  shared_words_path : Option String := none

/-- Errors raised by `WordLoader.load_json`, with the path appearing in the
exception message carried as the payload. -/
inductive LoadErr where
  | fileNotFound (p : FsPath) : LoadErr
  | jsonDecode (e : String) : LoadErr
  | invalidFormat (p : FsPath) : LoadErr
deriving Repr

/-- `WordLoader.validate_data` (`word_loader.py` lines 58-80): `False` unless
the value is a non-empty list whose first `min(10, len)` entries are all
dicts. -/
def WordLoader.validate_data (data : PyValue) : Bool :=
  match data with
  | .list xs =>
    if xs.length = 0 then false
    else (xs.take (min 10 xs.length)).all (fun item => item.isDict)
  | _ => false

/-- `WordLoader._get_target_path` (`word_loader.py` lines 82-99): when
`shared_words_path` is truthy (set and non-empty) and the shared candidate
`data_path.parent.parent / shared_words_path` exists, return it; otherwise
return `data_path`. -/
def WordLoader.get_target_path (l : WordLoader) (fs : FileSys) : FsPath :=
  match l.shared_words_path with
  | some s =>
    if s ≠ "" then
      let languages_dir := l.data_path.parent.parent
      let shared_path := languages_dir.join s
      if fs.pathExists shared_path then shared_path else l.data_path
    else l.data_path
  | none => l.data_path

/-- `WordLoader.load_json` (`word_loader.py` lines 30-56): resolve the target
path, fail with `FileNotFoundError(target_path)` if it does not exist, parse
it, and fail with `ValueError(self.data_path)` if validation rejects the
parsed value. -/
def WordLoader.load_json (l : WordLoader) (fs : FileSys) :
    Except LoadErr PyValue :=
  let target_path := l.get_target_path fs
  match fs.read target_path with
  | none => .error (.fileNotFound target_path)
  | some (.error e) => .error (.jsonDecode e)
  | some (.ok data) =>
    if WordLoader.validate_data data then .ok data
    else .error (.invalidFormat l.data_path)

/-- Python dict lookup `d.get(k)` on an association list. -/
def dictGet (kvs : List (String × PyValue)) (k : String) : Option PyValue :=
  (kvs.find? (fun kv => kv.1 = k)).map (fun kv => kv.2)

/-- Python dict membership `k in d`. -/
def dictContains (kvs : List (String × PyValue)) (k : String) : Bool :=
  kvs.any (fun kv => kv.1 = k)

/-- Python dict assignment `d[k] = v`: replace in place when the key is
present, otherwise append (insertion order is preserved). -/
def dictSet (kvs : List (String × PyValue)) (k : String) (v : PyValue) :
    List (String × PyValue) :=
  if dictContains kvs k then
    kvs.map (fun kv => if kv.1 = k then (k, v) else kv)
  else kvs ++ [(k, v)]

/-- The `LanguageConfig` dataclass (`language_config.py` lines 12-34).
Fields hold arbitrary Python values because the dataclass performs no runtime
type checking; the declared defaults are the dataclass field defaults. -/
structure LanguageConfig where
  lang_id : PyValue
  lang_name : PyValue
  fonts : PyValue
  styles : PyValue
  card_size : PyValue := .tup [.pyint 432, .pyint 540]
  theme_colors : PyValue := .list []
  level_filter : PyValue := .str "all"
  shared_words_path : PyValue := .pynone
deriving Repr

/-- Errors raised by `LanguageConfig.from_json`: `FileNotFoundError` with the
config path, a JSON decoding error, or the `TypeError` raised by
`cls(**data)` on unexpected/missing keyword arguments. -/
inductive ConfigErr where
  | notFound (p : FsPath) : ConfigErr
  | jsonDecode (e : String) : ConfigErr
  | typeErr : ConfigErr
deriving Repr

/-- The dataclass field names of `LanguageConfig`, in declaration order. -/
def configFieldNames : List String :=
  ["lang_id", "lang_name", "fonts", "styles", "card_size", "theme_colors",
   "level_filter", "shared_words_path"]

/-- `cls(**data)` for the `LanguageConfig` dataclass: succeeds exactly when
every key is a declared field name and the four fields without defaults are
present, filling the dataclass defaults for the rest; otherwise raises
`TypeError`. -/
def mkFromKwargs (kvs : List (String × PyValue)) :
    Except ConfigErr LanguageConfig :=
  if (kvs.all fun kv => configFieldNames.contains kv.1) &&
      dictContains kvs "lang_id" && dictContains kvs "lang_name" &&
      dictContains kvs "fonts" && dictContains kvs "styles" then
    .ok
      { lang_id := (dictGet kvs "lang_id").getD .pynone
        lang_name := (dictGet kvs "lang_name").getD .pynone
        fonts := (dictGet kvs "fonts").getD .pynone
        styles := (dictGet kvs "styles").getD .pynone
        card_size := (dictGet kvs "card_size").getD (.tup [.pyint 432, .pyint 540])
        theme_colors := (dictGet kvs "theme_colors").getD (.list [])
        level_filter := (dictGet kvs "level_filter").getD (.str "all")
        shared_words_path := (dictGet kvs "shared_words_path").getD .pynone }
  else .error .typeErr

/-- `if k not in data: data[k] = v`, one defaulting step of `from_json`. -/
def setIfAbsent (kvs : List (String × PyValue)) (k : String) (v : PyValue) :
    List (String × PyValue) :=
  if dictContains kvs k then kvs else dictSet kvs k v

/-- `if 'card_size' in data and isinstance(data['card_size'], list):
data['card_size'] = tuple(data['card_size'])` (`language_config.py` lines
54-55). -/
def applyCardSize (kvs : List (String × PyValue)) : List (String × PyValue) :=
  match dictGet kvs "card_size" with
  | some (.list xs) => dictSet kvs "card_size" (.tup xs)
  | _ => kvs

/-- The default-filling block of `from_json` (`language_config.py` lines
53-65), applied in source order. -/
def applyDefaults (kvs : List (String × PyValue)) : List (String × PyValue) :=
  setIfAbsent
    (setIfAbsent
      (setIfAbsent (applyCardSize kvs) "theme_colors" (.list []))
      "level_filter" (.str "all"))
    "shared_words_path" .pynone

/-- `LanguageConfig.from_json` (`language_config.py` lines 36-66): fail with
`FileNotFoundError(config_path)` if the path does not exist, parse the JSON,
convert a list-valued `card_size` to a tuple, fill the defaults for absent
`theme_colors`, `level_filter` and `shared_words_path`, and construct the
dataclass with `cls(**data)`. -/
def LanguageConfig.from_json (fs : FileSys) (config_path : FsPath) :
    Except ConfigErr LanguageConfig :=
  match fs.read config_path with
  | none => .error (.notFound config_path)
  | some (.error e) => .error (.jsonDecode e)
  | some (.ok v) =>
    match v with
    | .dict data0 => mkFromKwargs (applyDefaults data0)
    | _ => .error .typeErr

/-- Python `list(v)`: defined for the iterable values this code can hold
(`none` models the `TypeError` on a non-iterable). Iterating a string yields
its characters; iterating a dict yields its keys. -/
def pyListOf : PyValue → Option PyValue
  | .list xs => some (.list xs)
  | .tup xs => some (.list xs)
  | .str s => some (.list (s.toList.map (fun c => .str (String.mk [c]))))
  | .dict kvs => some (.list (kvs.map (fun kv => .str kv.1)))
  | _ => none

/-- `LanguageConfig.to_dict` (`language_config.py` lines 68-77): project the
record to a plain dict with exactly six keys, converting `card_size` with
`list(...)`; `level_filter` and `shared_words_path` are not included. -/
def LanguageConfig.to_dict (c : LanguageConfig) :
    Option (List (String × PyValue)) :=
  (pyListOf c.card_size).map fun cs =>
    [("lang_id", c.lang_id), ("lang_name", c.lang_name), ("fonts", c.fonts),
     ("styles", c.styles), ("card_size", cs), ("theme_colors", c.theme_colors)]

/-! ## Concrete scenarios used by witness theorems -/

/-- The primary word-list path `languages/ja/words.json`. -/
def pPrimary : FsPath := ⟨["languages", "ja", "words.json"]⟩

/-- The shared word-list path `languages/shared/common.json`. -/
def pShared : FsPath := ⟨["languages", "shared", "common.json"]⟩

/-- A config path `languages/ja/config.json`. -/
def pCfg : FsPath := ⟨["languages", "ja", "config.json"]⟩

/-- Contents of the primary word list in the scenarios. -/
def wordsPrimary : PyValue := .list [.dict [("word", .str "primary")]]

/-- Contents of the shared word list in the scenarios. -/
def wordsShared : PyValue := .list [.dict [("word", .str "shared")]]

/-- A word list of ten dicts followed by a non-dict entry at index 10. -/
def wordsLong : PyValue :=
  .list (List.replicate 10 (.dict []) ++ [.str "tail"])

/-- A loader configured with a shared words path. -/
def ldShared : WordLoader := ⟨pPrimary, some "shared/common.json"⟩

/-- A loader with no shared words path. -/
def ldPlain : WordLoader := ⟨pPrimary, none⟩

/-- A loader whose shared words path is the empty string. -/
def ldEmptyShared : WordLoader := ⟨pPrimary, some ""⟩

/-- Filesystem holding both the primary and the shared word list. -/
def fsBoth : FileSys :=
  ⟨fun p =>
    if p = pPrimary then some (.ok wordsPrimary)
    else if p = pShared then some (.ok wordsShared)
    else none⟩

/-- Filesystem holding only the primary word list. -/
def fsPrimaryOnly : FileSys :=
  ⟨fun p => if p = pPrimary then some (.ok wordsPrimary) else none⟩

/-- Filesystem where the shared word list exists but fails validation. -/
def fsSharedInvalid : FileSys :=
  ⟨fun p =>
    if p = pPrimary then some (.ok wordsPrimary)
    else if p = pShared then some (.ok (.list []))
    else none⟩

/-- Filesystem with no files at all. -/
def fsEmpty : FileSys := ⟨fun _ => none⟩

/-- Filesystem whose primary word list is `wordsLong`. -/
def fsLong : FileSys :=
  ⟨fun p => if p = pPrimary then some (.ok wordsLong) else none⟩

/-- A minimal config JSON dict: only the four required fields. -/
def cfgMinimalKvs : List (String × PyValue) :=
  [("lang_id", .str "ja"), ("lang_name", .str "Japanese"),
   ("fonts", .dict []), ("styles", .dict [])]

/-- Filesystem holding the minimal config at `pCfg`. -/
def fsCfgMinimal : FileSys :=
  ⟨fun p => if p = pCfg then some (.ok (.dict cfgMinimalKvs)) else none⟩

/-- The record produced by loading the minimal config. -/
def cfgMinimalRecord : LanguageConfig :=
  ⟨.str "ja", .str "Japanese", .dict [], .dict [],
   .tup [.pyint 432, .pyint 540], .list [], .str "all", .pynone⟩

/-- A config JSON dict that also carries a two-element `card_size` list. -/
def cfgSizeKvs : List (String × PyValue) :=
  [("lang_id", .str "ja"), ("lang_name", .str "Japanese"),
   ("fonts", .dict []), ("styles", .dict []),
   ("card_size", .list [.pyint 100, .pyint 200])]

/-- Filesystem holding the `card_size` config at `pCfg`. -/
def fsCfgSize : FileSys :=
  ⟨fun p => if p = pCfg then some (.ok (.dict cfgSizeKvs)) else none⟩

/-- The record produced by loading the `card_size` config. -/
def cfgSizeRecord : LanguageConfig :=
  ⟨.str "ja", .str "Japanese", .dict [], .dict [],
   .tup [.pyint 100, .pyint 200], .list [], .str "all", .pynone⟩

/-! ## Association-list lemmas -/

theorem dictContains_eq_false_iff (kvs : List (String × PyValue)) (k : String) :
    dictContains kvs k = false ↔ dictGet kvs k = none := by
  simp [dictContains, dictGet, List.any_eq_true, List.find?_eq_none]

theorem dictContains_eq_true_iff (kvs : List (String × PyValue)) (k : String) :
    dictContains kvs k = true ↔ (dictGet kvs k).isSome := by
  rw [← Bool.not_eq_false, dictContains_eq_false_iff, Option.isSome_iff_ne_none]

theorem find?_map_replace_self (kvs : List (String × PyValue)) (k : String)
    (v : PyValue) (h : dictContains kvs k = true) :
    (kvs.map (fun kv => if kv.1 = k then (k, v) else kv)).find?
      (fun kv => kv.1 = k) = some (k, v) := by
  induction kvs with
  | nil => simp [dictContains] at h
  | cons kv rest ih =>
    by_cases hk : kv.1 = k
    · simp [hk, List.find?_cons_of_pos]
    · have h2 : dictContains rest k = true := by
        simpa [dictContains, hk] using h
      simpa [hk, List.find?_cons_of_neg] using ih h2

theorem find?_map_replace_ne (kvs : List (String × PyValue)) (k k' : String)
    (v : PyValue) (h : k' ≠ k) :
    (kvs.map (fun kv => if kv.1 = k then (k, v) else kv)).find?
      (fun kv => kv.1 = k') = kvs.find? (fun kv => kv.1 = k') := by
  induction kvs with
  | nil => simp
  | cons kv rest ih =>
    rw [List.map_cons]
    by_cases hk : kv.1 = k
    · have hmh : (if kv.1 = k then (k, v) else kv) = (k, v) := by simp [hk]
      have hpred1 : ¬ ((k, v).1 = k') := fun hh => h hh.symm
      have hpred2 : ¬ (kv.1 = k') := by rw [hk]; exact fun hh => h hh.symm
      rw [hmh, List.find?_cons_of_neg _ (by simpa using hpred1),
        List.find?_cons_of_neg _ (by simpa using hpred2), ih]
    · have hmh : (if kv.1 = k then (k, v) else kv) = kv := by simp [hk]
      rw [hmh]
      by_cases hk' : kv.1 = k'
      · rw [List.find?_cons_of_pos _ (by simpa using hk'),
          List.find?_cons_of_pos _ (by simpa using hk')]
      · rw [List.find?_cons_of_neg _ (by simpa using hk'),
          List.find?_cons_of_neg _ (by simpa using hk'), ih]

theorem dictGet_dictSet_self (kvs : List (String × PyValue)) (k : String)
    (v : PyValue) : dictGet (dictSet kvs k v) k = some v := by
  unfold dictSet
  by_cases hc : dictContains kvs k
  · simp [hc, dictGet, find?_map_replace_self kvs k v hc]
  · simp only [hc, if_false, dictGet, Bool.false_eq_true]
    rw [List.find?_append]
    have : kvs.find? (fun kv => kv.1 = k) = none := by
      have := (dictContains_eq_false_iff kvs k).mp (by simpa using hc)
      simpa [dictGet] using this
    simp [this, List.find?]

theorem dictGet_dictSet_ne (kvs : List (String × PyValue)) (k k' : String)
    (v : PyValue) (h : k' ≠ k) :
    dictGet (dictSet kvs k v) k' = dictGet kvs k' := by
  unfold dictSet
  by_cases hc : dictContains kvs k
  · simp [hc, dictGet, find?_map_replace_ne kvs k k' v h]
  · simp only [hc, if_false, dictGet, Bool.false_eq_true]
    rw [List.find?_append]
    have hne : ¬ (k = k') := fun hh => h hh.symm
    cases hf : kvs.find? (fun kv => kv.1 = k') <;> simp [hf, List.find?, hne]

theorem dictGet_setIfAbsent_self (kvs : List (String × PyValue)) (k : String)
    (v : PyValue) :
    dictGet (setIfAbsent kvs k v) k = some ((dictGet kvs k).getD v) := by
  unfold setIfAbsent
  by_cases hc : dictContains kvs k
  · rcases hg : dictGet kvs k with _ | w
    · rw [(dictContains_eq_false_iff kvs k).mpr hg] at hc; simp at hc
    · simp [hc, hg]
  · have hg := (dictContains_eq_false_iff kvs k).mp (by simpa using hc)
    simp [hc, hg, dictGet_dictSet_self]

theorem dictGet_setIfAbsent_ne (kvs : List (String × PyValue)) (k k' : String)
    (v : PyValue) (h : k' ≠ k) :
    dictGet (setIfAbsent kvs k v) k' = dictGet kvs k' := by
  unfold setIfAbsent
  by_cases hc : dictContains kvs k
  · simp [hc]
  · simp [hc, dictGet_dictSet_ne kvs k k' v h]

theorem dictGet_applyCardSize_self (kvs : List (String × PyValue)) :
    dictGet (applyCardSize kvs) "card_size" =
      match dictGet kvs "card_size" with
      | some (.list xs) => some (.tup xs)
      | o => o := by
  unfold applyCardSize
  rcases hg : dictGet kvs "card_size" with _ | w
  · simp [hg]
  · cases w <;> simp [hg, dictGet_dictSet_self]

theorem dictGet_applyCardSize_ne (kvs : List (String × PyValue)) (k : String)
    (h : k ≠ "card_size") :
    dictGet (applyCardSize kvs) k = dictGet kvs k := by
  unfold applyCardSize
  rcases hg : dictGet kvs "card_size" with _ | w
  · simp
  · cases w <;> simp [dictGet_dictSet_ne _ _ _ _ h]

theorem dictGet_applyDefaults_card (kvs : List (String × PyValue)) :
    dictGet (applyDefaults kvs) "card_size" =
      match dictGet kvs "card_size" with
      | some (.list xs) => some (.tup xs)
      | o => o := by
  unfold applyDefaults
  rw [dictGet_setIfAbsent_ne _ _ _ _ (by decide),
    dictGet_setIfAbsent_ne _ _ _ _ (by decide),
    dictGet_setIfAbsent_ne _ _ _ _ (by decide),
    dictGet_applyCardSize_self]

theorem dictGet_applyDefaults_theme (kvs : List (String × PyValue)) :
    dictGet (applyDefaults kvs) "theme_colors" =
      some ((dictGet kvs "theme_colors").getD (.list [])) := by
  unfold applyDefaults
  rw [dictGet_setIfAbsent_ne _ _ _ _ (by decide),
    dictGet_setIfAbsent_ne _ _ _ _ (by decide),
    dictGet_setIfAbsent_self,
    dictGet_applyCardSize_ne _ _ (by decide)]

theorem dictGet_applyDefaults_level (kvs : List (String × PyValue)) :
    dictGet (applyDefaults kvs) "level_filter" =
      some ((dictGet kvs "level_filter").getD (.str "all")) := by
  unfold applyDefaults
  rw [dictGet_setIfAbsent_ne _ _ _ _ (by decide),
    dictGet_setIfAbsent_self,
    dictGet_setIfAbsent_ne _ _ _ _ (by decide),
    dictGet_applyCardSize_ne _ _ (by decide)]

theorem dictGet_applyDefaults_shared (kvs : List (String × PyValue)) :
    dictGet (applyDefaults kvs) "shared_words_path" =
      some ((dictGet kvs "shared_words_path").getD .pynone) := by
  unfold applyDefaults
  rw [dictGet_setIfAbsent_self,
    dictGet_setIfAbsent_ne _ _ _ _ (by decide),
    dictGet_setIfAbsent_ne _ _ _ _ (by decide),
    dictGet_applyCardSize_ne _ _ (by decide)]

theorem from_json_ok_fields (fs : FileSys) (p : FsPath)
    (kvs : List (String × PyValue)) (c : LanguageConfig)
    (hread : fs.read p = some (.ok (.dict kvs)))
    (hok : LanguageConfig.from_json fs p = .ok c) :
    c.card_size = (match dictGet kvs "card_size" with
      | some (.list xs) => .tup xs
      | some w => w
      | none => .tup [.pyint 432, .pyint 540]) ∧
    c.theme_colors = (dictGet kvs "theme_colors").getD (.list []) ∧
    c.level_filter = (dictGet kvs "level_filter").getD (.str "all") ∧
    c.shared_words_path = (dictGet kvs "shared_words_path").getD .pynone := by
  unfold LanguageConfig.from_json at hok
  rw [hread] at hok
  simp only [mkFromKwargs] at hok
  split at hok
  · rw [Except.ok.injEq] at hok
    subst hok
    refine ⟨?_, ?_, ?_, ?_⟩
    · show (dictGet (applyDefaults kvs) "card_size").getD _ = _
      rw [dictGet_applyDefaults_card]
      rcases hg : dictGet kvs "card_size" with _ | w
      · rfl
      · cases w <;> rfl
    · show (dictGet (applyDefaults kvs) "theme_colors").getD _ = _
      rw [dictGet_applyDefaults_theme]; rfl
    · show (dictGet (applyDefaults kvs) "level_filter").getD _ = _
      rw [dictGet_applyDefaults_level]; rfl
    · show (dictGet (applyDefaults kvs) "shared_words_path").getD _ = _
      rw [dictGet_applyDefaults_shared]; rfl
  · exact absurd hok (by simp)

/-! ## Claims -/

/-- Claim C1: for every `WordLoader` whose `shared_words_path` is set (to a
truthy string) and whose shared candidate
`data_path.parent.parent / shared_words_path` exists, `_get_target_path`
returns that shared path and `load_json` returns the parsed contents of the
shared file rather than of `data_path`, even when `data_path` also exists
and holds different contents. -/
theorem C1_shared_file_overrides_primary (fs : FileSys) (l : WordLoader)
    (s : String) (v w : PyValue)
    (hs : l.shared_words_path = some s) (hne : s ≠ "")
    (hshared : fs.read (l.data_path.parent.parent.join s) = some (.ok v))
    (hvalid : WordLoader.validate_data v = true)
    (hprimary : fs.read l.data_path = some (.ok w)) (hdiff : w ≠ v) :
    l.get_target_path fs = l.data_path.parent.parent.join s ∧
    l.load_json fs = .ok v := by
  have htarget : l.get_target_path fs = l.data_path.parent.parent.join s := by
    unfold WordLoader.get_target_path
    rw [hs]
    simp [hne, FileSys.pathExists, hshared]
  refine ⟨htarget, ?_⟩
  simp only [WordLoader.load_json, htarget, hshared, hvalid, if_true]

/-- Witness for C1: with both the primary and a different shared file on
disk, loading returns the shared contents. -/
theorem C1_shared_file_overrides_primary_witness :
    ldShared.get_target_path fsBoth = pShared ∧
    ldShared.load_json fsBoth = .ok wordsShared := by
  have h := C1_shared_file_overrides_primary fsBoth ldShared
    "shared/common.json" wordsShared wordsPrimary rfl (by decide) rfl rfl rfl
    (by simp [wordsPrimary, wordsShared])
  exact h

/-- Claim C2: with a truthy `shared_words_path` whose candidate does not
exist on disk, `_get_target_path` returns `data_path` unchanged and
`load_json` behaves exactly like a loader with no shared path, with no error
about the missing shared file. -/
theorem C2_missing_shared_falls_back (fs : FileSys) (l : WordLoader)
    (s : String) (hs : l.shared_words_path = some s) (hne : s ≠ "")
    (hmiss : fs.read (l.data_path.parent.parent.join s) = none) :
    l.get_target_path fs = l.data_path ∧
    l.load_json fs = WordLoader.load_json ⟨l.data_path, none⟩ fs := by
  have htarget : l.get_target_path fs = l.data_path := by
    unfold WordLoader.get_target_path
    rw [hs]
    simp [hne, FileSys.pathExists, hmiss]
  refine ⟨htarget, ?_⟩
  unfold WordLoader.load_json
  rw [htarget]
  rfl

/-- Witness for C2: a configured-but-missing shared file silently falls back
to the primary path. -/
theorem C2_missing_shared_falls_back_witness :
    ldShared.get_target_path fsPrimaryOnly = pPrimary ∧
    ldShared.load_json fsPrimaryOnly =
      WordLoader.load_json ⟨pPrimary, none⟩ fsPrimaryOnly :=
  C2_missing_shared_falls_back fsPrimaryOnly ldShared "shared/common.json"
    rfl (by decide) rfl

/-- Claim C3: every optional field absent from the source JSON receives its
documented default — `theme_colors = []`, `level_filter = "all"`,
`shared_words_path = None`, `card_size = (432, 540)` — never a propagated
null. -/
theorem C3_absent_optional_fields_get_defaults (fs : FileSys) (p : FsPath)
    (kvs : List (String × PyValue)) (c : LanguageConfig)
    (hread : fs.read p = some (.ok (.dict kvs)))
    (hok : LanguageConfig.from_json fs p = .ok c) :
    (dictContains kvs "theme_colors" = false → c.theme_colors = .list []) ∧
    (dictContains kvs "level_filter" = false → c.level_filter = .str "all") ∧
    (dictContains kvs "shared_words_path" = false →
      c.shared_words_path = .pynone) ∧
    (dictContains kvs "card_size" = false →
      c.card_size = .tup [.pyint 432, .pyint 540]) := by
  obtain ⟨hcs, hth, hlv, hsw⟩ := from_json_ok_fields fs p kvs c hread hok
  refine ⟨?_, ?_, ?_, ?_⟩
  · intro h
    rw [hth, (dictContains_eq_false_iff kvs "theme_colors").mp h]
    rfl
  · intro h
    rw [hlv, (dictContains_eq_false_iff kvs "level_filter").mp h]
    rfl
  · intro h
    rw [hsw, (dictContains_eq_false_iff kvs "shared_words_path").mp h]
    rfl
  · intro h
    rw [hcs, (dictContains_eq_false_iff kvs "card_size").mp h]

/-- Witness for C3: loading a config with only the four required fields
yields all four documented defaults. -/
theorem C3_absent_optional_fields_get_defaults_witness :
    LanguageConfig.from_json fsCfgMinimal pCfg = .ok cfgMinimalRecord ∧
    cfgMinimalRecord.theme_colors = .list [] ∧
    cfgMinimalRecord.level_filter = .str "all" ∧
    cfgMinimalRecord.shared_words_path = .pynone ∧
    cfgMinimalRecord.card_size = .tup [.pyint 432, .pyint 540] := by
  have h := C3_absent_optional_fields_get_defaults fsCfgMinimal pCfg
    cfgMinimalKvs cfgMinimalRecord rfl rfl
  exact ⟨rfl, h.1 rfl, h.2.1 rfl, h.2.2.1 rfl, h.2.2.2 rfl⟩

/-- Claim C4: `validate_data` is false on every non-list and on the empty
list, and on a non-empty list it is true exactly when every entry among the
first `min(10, length)` is a dict; in particular on `[]`, `[{}]`,
`["not-a-dict"]` and a non-list it returns false, true, false, false. -/
theorem C4_validate_data_cases :
    (∀ v : PyValue, v.isList = false → WordLoader.validate_data v = false) ∧
    WordLoader.validate_data (.list []) = false ∧
    (∀ xs : List PyValue, WordLoader.validate_data (.list xs) = true ↔
      (xs ≠ [] ∧ ∀ y ∈ xs.take (min 10 xs.length), y.isDict = true)) ∧
    WordLoader.validate_data (.list [.dict []]) = true ∧
    WordLoader.validate_data (.list [.str "not-a-dict"]) = false ∧
    WordLoader.validate_data (.dict []) = false := by
  refine ⟨?_, rfl, ?_, rfl, rfl, rfl⟩
  · intro v hv
    cases v <;> simp_all [WordLoader.validate_data, PyValue.isList]
  · intro xs
    unfold WordLoader.validate_data
    rcases xs with _ | ⟨x, rest⟩
    · simp
    · simp [List.all_eq_true]

/-- Witness for C4: the quantified parts of C4 applied to a non-list value
and to a singleton list of one dict. -/
theorem C4_validate_data_cases_witness :
    WordLoader.validate_data (.str "nope") = false ∧
    WordLoader.validate_data (.list [.dict [("word", .str "x")]]) = true := by
  have h := C4_validate_data_cases
  exact ⟨h.1 (.str "nope") rfl,
    (h.2.2.1 [.dict [("word", .str "x")]]).mpr ⟨by simp, by decide⟩⟩

/-- Claim C5: `LanguageConfig.from_json` raises `FileNotFoundError` iff the
config path does not exist, and `WordLoader.load_json` raises it iff the
path resolved by `_get_target_path` does not exist. -/
theorem C5_not_found_iff_missing (fs : FileSys) (p : FsPath)
    (l : WordLoader) :
    ((∃ q, LanguageConfig.from_json fs p = .error (.notFound q)) ↔
      fs.read p = none) ∧
    ((∃ q, l.load_json fs = .error (.fileNotFound q)) ↔
      fs.read (l.get_target_path fs) = none) := by
  constructor
  · constructor
    · rintro ⟨q, hq⟩
      rcases hr : fs.read p with _ | c
      · rfl
      · exfalso
        unfold LanguageConfig.from_json at hq
        rw [hr] at hq
        rcases c with e | v
        · simp at hq
        · rcases v with _ | _ | _ | _ | _ | _ | kvs <;> simp at hq
          unfold mkFromKwargs at hq
          split at hq <;> simp at hq
    · intro hr
      refine ⟨p, ?_⟩
      unfold LanguageConfig.from_json
      rw [hr]
  · constructor
    · rintro ⟨q, hq⟩
      rcases hr : fs.read (l.get_target_path fs) with _ | c
      · rfl
      · exfalso
        simp only [WordLoader.load_json, hr] at hq
        rcases c with e | v
        · simp at hq
        · by_cases hv : WordLoader.validate_data v <;> simp [hv] at hq
    · intro hr
      refine ⟨l.get_target_path fs, ?_⟩
      simp only [WordLoader.load_json, hr]

/-- Witness for C5: on an empty filesystem both loaders report the missing
file. -/
theorem C5_not_found_iff_missing_witness :
    (∃ q, LanguageConfig.from_json fsEmpty pCfg = .error (.notFound q)) ∧
    (∃ q, WordLoader.load_json ldPlain fsEmpty =
      .error (.fileNotFound q)) := by
  have h := C5_not_found_iff_missing fsEmpty pCfg ldPlain
  exact ⟨h.1.mpr rfl, h.2.mpr rfl⟩

/-- Claim C6: when the parsed value fails validation, `load_json` raises
`ValueError` whose message references the originally configured `data_path`,
not the resolved target path. -/
theorem C6_invalid_format_blames_data_path (fs : FileSys) (l : WordLoader)
    (v : PyValue)
    (hread : fs.read (l.get_target_path fs) = some (.ok v))
    (hinvalid : WordLoader.validate_data v = false) :
    l.load_json fs = .error (.invalidFormat l.data_path) := by
  simp only [WordLoader.load_json, hread, hinvalid, Bool.false_eq_true,
    if_false]

/-- Witness for C6: the bytes come from the shared file, yet the error
message names the primary `data_path`. -/
theorem C6_invalid_format_blames_data_path_witness :
    ldShared.load_json fsSharedInvalid = .error (.invalidFormat pPrimary) ∧
    ldShared.get_target_path fsSharedInvalid = pShared ∧
    pShared ≠ pPrimary := by
  refine ⟨?_, rfl, by decide⟩
  exact C6_invalid_format_blames_data_path fsSharedInvalid ldShared
    (.list []) rfl rfl

/-- Claim C7: a `card_size` given as a two-element list is converted to a
two-tuple with the same values in the same order. -/
theorem C7_card_size_two_list_to_tuple (fs : FileSys) (p : FsPath)
    (kvs : List (String × PyValue)) (a b : PyValue) (c : LanguageConfig)
    (hread : fs.read p = some (.ok (.dict kvs)))
    (hcs : dictGet kvs "card_size" = some (.list [a, b]))
    (hok : LanguageConfig.from_json fs p = .ok c) :
    c.card_size = .tup [a, b] := by
  obtain ⟨hfield, -, -, -⟩ := from_json_ok_fields fs p kvs c hread hok
  rw [hfield, hcs]

/-- Witness for C7: a config with `card_size = [100, 200]` loads to the
tuple `(100, 200)`. -/
theorem C7_card_size_two_list_to_tuple_witness :
    cfgSizeRecord.card_size = .tup [.pyint 100, .pyint 200] :=
  C7_card_size_two_list_to_tuple fsCfgSize pCfg cfgSizeKvs (.pyint 100)
    (.pyint 200) cfgSizeRecord rfl rfl rfl

/-- Claim C8: `to_dict` returns a mapping with exactly the keys `lang_id`,
`lang_name`, `fonts`, `styles`, `card_size` (converted to a list) and
`theme_colors`, each holding the record's field value, and omits
`level_filter` and `shared_words_path`. -/
theorem C8_to_dict_exact_keys (c : LanguageConfig) (xs : List PyValue)
    (hcs : c.card_size = .tup xs) :
    c.to_dict = some [("lang_id", c.lang_id), ("lang_name", c.lang_name),
      ("fonts", c.fonts), ("styles", c.styles), ("card_size", .list xs),
      ("theme_colors", c.theme_colors)] ∧
    dictContains [("lang_id", c.lang_id), ("lang_name", c.lang_name),
      ("fonts", c.fonts), ("styles", c.styles), ("card_size", .list xs),
      ("theme_colors", c.theme_colors)] "level_filter" = false ∧
    dictContains [("lang_id", c.lang_id), ("lang_name", c.lang_name),
      ("fonts", c.fonts), ("styles", c.styles), ("card_size", .list xs),
      ("theme_colors", c.theme_colors)] "shared_words_path" = false := by
  refine ⟨?_, by simp [dictContains], by simp [dictContains]⟩
  unfold LanguageConfig.to_dict
  rw [hcs]
  rfl

/-- Witness for C8: `to_dict` of a concrete record. -/
theorem C8_to_dict_exact_keys_witness :
    cfgSizeRecord.to_dict = some [("lang_id", .str "ja"),
      ("lang_name", .str "Japanese"), ("fonts", .dict []),
      ("styles", .dict []), ("card_size", .list [.pyint 100, .pyint 200]),
      ("theme_colors", .list [])] := by
  have h := C8_to_dict_exact_keys cfgSizeRecord [.pyint 100, .pyint 200] rfl
  exact h.1

/-- Claim C9: an empty-string `shared_words_path` behaves exactly like an
unset one — the guard tests truthiness, so `_get_target_path` returns
`data_path` for every filesystem, never consulting a shared candidate. -/
theorem C9_empty_string_like_unset (fs : FileSys) (l : WordLoader)
    (hs : l.shared_words_path = some "") :
    l.get_target_path fs = l.data_path ∧
    l.get_target_path fs =
      WordLoader.get_target_path ⟨l.data_path, none⟩ fs := by
  unfold WordLoader.get_target_path
  rw [hs]
  simp

/-- Witness for C9: the empty-string loader resolves to the primary path
even on a filesystem where the shared file exists. -/
theorem C9_empty_string_like_unset_witness :
    ldEmptyShared.get_target_path fsBoth = pPrimary ∧
    ldEmptyShared.get_target_path fsBoth =
      WordLoader.get_target_path ⟨pPrimary, none⟩ fsBoth :=
  C9_empty_string_like_unset fsBoth ldEmptyShared rfl

/-- Claim C10: a list longer than ten whose first ten entries are dicts
validates regardless of the later entries, and `load_json` can return a list
with a non-dict entry past the sampled ten. -/
theorem C10_validation_samples_only_first_ten :
    (∀ xs : List PyValue, 10 < xs.length →
      (∀ y ∈ xs.take 10, y.isDict = true) →
      WordLoader.validate_data (.list xs) = true) ∧
    WordLoader.load_json ⟨pPrimary, none⟩ fsLong = .ok wordsLong := by
  constructor
  · intro xs hlen hfirst
    have h0 : WordLoader.validate_data (.list xs) =
        if xs.length = 0 then false
        else (xs.take (min 10 xs.length)).all (fun item => item.isDict) := rfl
    have hmin : min 10 xs.length = 10 := by omega
    rw [h0, if_neg (by omega), hmin, List.all_eq_true]
    intro y hy
    simpa using hfirst y hy
  · rfl

/-- Witness for C10: the eleven-entry list with a trailing non-dict
validates. -/
theorem C10_validation_samples_only_first_ten_witness :
    WordLoader.validate_data wordsLong = true := by
  have h := C10_validation_samples_only_first_ten
  exact h.1 (List.replicate 10 (.dict []) ++ [.str "tail"]) (by decide)
    (by decide)
